import Mathlib

/-!
# Verification of pykuda `service_type_utils.py`

A shallow embedding of `src/pykuda/service_type_utils.py` (class
`ServiceTypeUtils`): twelve endpoint methods, each of which checks the
result of `generate_headers`, issues one HTTP POST, evaluates an
endpoint-specific success predicate over the parsed JSON body, and either
extracts/renames fields into a payload or returns an error-flagged result
carrying the raw response.

Python values flowing through the code are modelled by a `Json` inductive
with Python truthiness; `dict.get` and `dict[...]` subscription are
modelled by `Json.get` / `Json.index`, returning `Except PyErr` so that
`AttributeError` / `KeyError` / `TypeError` raised by the Python code
appear as `Except.error`.  The HTTP transport is modelled as an input: each
endpoint function receives the `HttpResponse` that `requests.post` would
return, and reports in `EndpointOutcome.posts` how many POSTs it issued,
so that short-circuit behaviour ("no HTTP request issued") is provable.
-/

namespace Pykuda

/-- A Python/JSON value as handled by the library: the parsed response
body, request mappings, and extracted payloads. `null` models Python
`None`. -/
inductive Json where
  | null : Json
  | bool (b : Bool) : Json
  | num (n : Int) : Json
  | str (s : String) : Json
  | arr (xs : List Json) : Json
  | obj (kvs : List (String × Json)) : Json

/-- Python exceptions that the code under `src/` can raise while handling
a response: `KeyError` from `d[k]` with a missing key, `AttributeError`
from `.get` on a non-dict, `TypeError` from subscripting a non-dict with a
string key. -/
inductive PyErr where
  | keyError (k : String) : PyErr
  | attributeError : PyErr
  | typeError : PyErr

/-- Python truthiness of a value, as used by the `if ... and ...` chains in
the source: `None`, `False`, `0`, `""`, `[]` and `{}` are falsy. -/
def Json.truthy : Json → Bool
  | .null => false
  | .bool b => b
  | .num n => n != 0
  | .str s => s != ""
  | .arr xs => !xs.isEmpty
  | .obj kvs => !kvs.isEmpty

/-- Python `j.get(k)`: on a dict returns the value or `None`; on any other
value raises `AttributeError`. -/
def Json.get (j : Json) (k : String) : Except PyErr Json :=
  match j with
  | .obj kvs => .ok ((kvs.lookup k).getD .null)
  | _ => .error .attributeError

/-- Python `j[k]` with a string key: on a dict returns the value or raises
`KeyError`; on any other value raises `TypeError`. -/
def Json.index (j : Json) (k : String) : Except PyErr Json :=
  match j with
  | .obj kvs =>
    match kvs.lookup k with
    | some v => .ok v
    | none => .error (.keyError k)
  | _ => .error .typeError

/-- Python `j.get(k1).get(k2)`. -/
def Json.get2 (j : Json) (k1 k2 : String) : Except PyErr Json :=
  (j.get k1).bind (fun v => v.get k2)

/-- Python `j[k1][k2]`. -/
def Json.index2 (j : Json) (k1 k2 : String) : Except PyErr Json :=
  (j.index k1).bind (fun v => v.index k2)

/-- The Python condition `j.get(k)` used as a boolean: truthiness of the
looked-up value, propagating a raised `AttributeError`. -/
def truthyGet (j : Json) (k : String) : Except PyErr Bool :=
  (j.get k).map Json.truthy

/-- The Python condition `j.get(k1).get(k2)` used as a boolean. -/
def truthyGet2 (j : Json) (k1 k2 : String) : Except PyErr Bool :=
  (j.get2 k1 k2).map Json.truthy

/-- A `requests.models.Response`: its transport status code and the parsed
JSON body that `response.json()` yields (the embedding covers executions
where body parsing succeeds; a JSON parse failure is uncaught and fatal in
the source and outside every claim). -/
structure HttpResponse where
  status_code : Int
  body : Json

/-- The payload slot of a result: either an extracted/constructed JSON
value (dict, list, ...) or a raw `requests` response object passed
through. -/
inductive PyData where
  | json (j : Json) : PyData
  | response (r : HttpResponse) : PyData

/-- Modelled from the spec: the `PyKudaResponse` dataclass
(`pykuda/classes/py_kuda_response.py`) is not under `src/`.  Per the spec's
data model it carries `status_code`, a payload, and an `is_error` boolean.
The `error` field defaults to `false`: this default is forced by the call
sites in `service_type_utils.py`, which omit `error` on every success path
(where the spec requires `is_error = False`) and pass `error=True`
explicitly on every response-error path. -/
structure PyKudaResponse where
  status_code : Int
  data : PyData
  error : Bool := false

/-- Modelled from the spec: `generate_headers` (inherited from `Utils`,
not under `src/`) "returns either a valid header mapping or an error
object, never raises".  The source only ever tests the result with
`isinstance(headers, requests.models.Response)` and otherwise forwards the
headers opaquely to the transport, so the valid-headers case carries no
data. -/
inductive HeadersResult where
  | ok : HeadersResult
  | err (r : HttpResponse) : HeadersResult

/-- The observable outcome of one endpoint method call: the returned
`PyKudaResponse` (or the Python exception that propagated), together with
the number of HTTP POSTs issued during the call. -/
structure EndpointOutcome where
  result : Except PyErr PyKudaResponse
  posts : Nat

/-- The header check repeated verbatim at the top of every endpoint
method: `headers = self.generate_headers()`, then
`if isinstance(headers, requests.models.Response): return
PyKudaResponse(status_code=headers.status_code, data=headers)` (note: no
`error=True` on this path), else run the endpoint body after one POST. -/
def dispatchHeaders (body : Json → HttpResponse → Except PyErr PyKudaResponse)
    (headers : HeadersResult) (data : Json) (response : HttpResponse) :
    EndpointOutcome :=
  match headers with
  | .err r => ⟨.ok ⟨r.status_code, .response r, false⟩, 0⟩
  | .ok => ⟨body data response, 1⟩

/-- Success predicate of `bank_list_request` (lines 48-54):
`response.status_code == 200 and response_data and
response_data.get("status") and response_data.get("data") and
response_data.get("data").get("banks")`. -/
def bank_list_pred (sc : Int) (rd : Json) : Except PyErr Bool :=
  if sc = 200 then
    if rd.truthy then
      match truthyGet rd "status" with
      | .error e => .error e
      | .ok false => .ok false
      | .ok true =>
        match truthyGet rd "data" with
        | .error e => .error e
        | .ok false => .ok false
        | .ok true => truthyGet2 rd "data" "banks"
    else .ok false
  else .ok false

/-- Body of `bank_list_request` after the headers check: on success
returns `PyKudaResponse(status_code=200,
data=response_data["data"]["banks"])`, else the error-flagged raw
response. -/
def bank_list_body (_data : Json) (response : HttpResponse) :
    Except PyErr PyKudaResponse :=
  match bank_list_pred response.status_code response.body with
  | .error e => .error e
  | .ok true =>
    match response.body.index2 "data" "banks" with
    | .error e => .error e
    | .ok banks => .ok ⟨200, .json banks, false⟩
  | .ok false => .ok ⟨response.status_code, .response response, true⟩

/-- Embeds `ServiceTypeUtils.bank_list_request`. -/
def bank_list_request : HeadersResult → Json → HttpResponse → EndpointOutcome :=
  dispatchHeaders bank_list_body

/-- Success predicate of `create_virtual_account_request` (lines 85-91):
like `bank_list_pred` but checking `data.accountNumber`. -/
def create_virtual_account_pred (sc : Int) (rd : Json) : Except PyErr Bool :=
  if sc = 200 then
    if rd.truthy then
      match truthyGet rd "status" with
      | .error e => .error e
      | .ok false => .ok false
      | .ok true =>
        match truthyGet rd "data" with
        | .error e => .error e
        | .ok false => .ok false
        | .ok true => truthyGet2 rd "data" "accountNumber"
    else .ok false
  else .ok false

/-- Body of `create_virtual_account_request`: on success returns status
201 with payload `{"account_number": response_data["data"]["accountNumber"],
"tracking_reference": data["Data"]["trackingReference"]}` (the tracking
reference is subscripted out of the caller's request and can raise
`KeyError`). -/
def create_virtual_account_body (data : Json) (response : HttpResponse) :
    Except PyErr PyKudaResponse :=
  match create_virtual_account_pred response.status_code response.body with
  | .error e => .error e
  | .ok true =>
    match response.body.index2 "data" "accountNumber" with
    | .error e => .error e
    | .ok acct =>
      match data.index2 "Data" "trackingReference" with
      | .error e => .error e
      | .ok t =>
        .ok ⟨201, .json (.obj [("account_number", acct),
                               ("tracking_reference", t)]), false⟩
  | .ok false => .ok ⟨response.status_code, .response response, true⟩

/-- Embeds `ServiceTypeUtils.create_virtual_account_request`. -/
def create_virtual_account_request :
    HeadersResult → Json → HttpResponse → EndpointOutcome :=
  dispatchHeaders create_virtual_account_body

/-- Success predicate shared by `virtual_account_balance_request` (line
129) and `main_account_balance_request` (line 167):
`response.status_code == 200 and response_data.get("status")` — no check
of the nested balance fields. -/
def balance_pred (sc : Int) (rd : Json) : Except PyErr Bool :=
  if sc = 200 then truthyGet rd "status"
  else .ok false

/-- Body shared by both balance endpoints: on success returns status 200
with payload `{"ledger": response_data["data"]["ledgerBalance"],
"available": response_data["data"]["availableBalance"], "withdrawable":
response_data["data"]["withdrawableBalance"]}` — each value is extracted
by dict subscription and can raise `KeyError`. -/
def balance_body (_data : Json) (response : HttpResponse) :
    Except PyErr PyKudaResponse :=
  match balance_pred response.status_code response.body with
  | .error e => .error e
  | .ok true =>
    match response.body.index2 "data" "ledgerBalance" with
    | .error e => .error e
    | .ok ledger =>
      match response.body.index2 "data" "availableBalance" with
      | .error e => .error e
      | .ok available =>
        match response.body.index2 "data" "withdrawableBalance" with
        | .error e => .error e
        | .ok withdrawable =>
          .ok ⟨200, .json (.obj [("ledger", ledger),
                                 ("available", available),
                                 ("withdrawable", withdrawable)]), false⟩
  | .ok false => .ok ⟨response.status_code, .response response, true⟩

/-- Embeds `ServiceTypeUtils.virtual_account_balance_request`. -/
def virtual_account_balance_request :
    HeadersResult → Json → HttpResponse → EndpointOutcome :=
  dispatchHeaders balance_body

/-- Embeds `ServiceTypeUtils.main_account_balance_request` (lines 143-179: its
headers check, predicate and payload construction are textually identical
to `virtual_account_balance_request`). -/
def main_account_balance_request :
    HeadersResult → Json → HttpResponse → EndpointOutcome :=
  dispatchHeaders balance_body

/-- Success predicate shared by `fund_virtual_account_request` (lines
205-209) and `withdraw_from_virtual_account_request` (lines 243-247):
`response.status_code == 200 and response_data.get("status") and
response_data.get("transactionReference")`. -/
def transaction_reference_pred (sc : Int) (rd : Json) : Except PyErr Bool :=
  if sc = 200 then
    match truthyGet rd "status" with
    | .error e => .error e
    | .ok false => .ok false
    | .ok true => truthyGet rd "transactionReference"
  else .ok false

/-- Body shared by `fund_virtual_account_request` and
`withdraw_from_virtual_account_request`: on success returns status 200
with payload `{"reference": response_data.get("transactionReference")}`. -/
def transaction_reference_body (_data : Json) (response : HttpResponse) :
    Except PyErr PyKudaResponse :=
  match transaction_reference_pred response.status_code response.body with
  | .error e => .error e
  | .ok true =>
    match response.body.get "transactionReference" with
    | .error e => .error e
    | .ok ref => .ok ⟨200, .json (.obj [("reference", ref)]), false⟩
  | .ok false => .ok ⟨response.status_code, .response response, true⟩

/-- Embeds `ServiceTypeUtils.fund_virtual_account_request`. -/
def fund_virtual_account_request :
    HeadersResult → Json → HttpResponse → EndpointOutcome :=
  dispatchHeaders transaction_reference_body

/-- Embeds `ServiceTypeUtils.withdraw_from_virtual_account_request` (body
textually identical to `fund_virtual_account_request`). -/
def withdraw_from_virtual_account_request :
    HeadersResult → Json → HttpResponse → EndpointOutcome :=
  dispatchHeaders transaction_reference_body

/-- Success predicate of `confirm_transfer_recipient_request` (lines
281-287): `response.status_code == 200 and response_data.get("status")
and response_data.get("data") and
response_data.get("data").get("beneficiaryAccountNumber") and
response_data.get("data").get("beneficiaryName")`. -/
def confirm_transfer_recipient_pred (sc : Int) (rd : Json) :
    Except PyErr Bool :=
  if sc = 200 then
    match truthyGet rd "status" with
    | .error e => .error e
    | .ok false => .ok false
    | .ok true =>
      match truthyGet rd "data" with
      | .error e => .error e
      | .ok false => .ok false
      | .ok true =>
        match truthyGet2 rd "data" "beneficiaryAccountNumber" with
        | .error e => .error e
        | .ok false => .ok false
        | .ok true => truthyGet2 rd "data" "beneficiaryName"
  else .ok false

/-- Body of `confirm_transfer_recipient_request`: on success binds
`beneficiary_data = response_data.get("data")` and returns status 200 with
the eight-field renamed payload, whose last entry `tracking_reference` is
subscripted out of the caller's request as
`data["Data"]["SenderTrackingReference"]`. -/
def confirm_transfer_recipient_body (data : Json) (response : HttpResponse) :
    Except PyErr PyKudaResponse :=
  match confirm_transfer_recipient_pred response.status_code response.body with
  | .error e => .error e
  | .ok true =>
    match response.body.get "data" with
    | .error e => .error e
    | .ok bd =>
      match bd.get "beneficiaryAccountNumber" with
      | .error e => .error e
      | .ok ban =>
        match bd.get "beneficiaryName" with
        | .error e => .error e
        | .ok bn =>
          match bd.get "beneficiaryBankCode" with
          | .error e => .error e
          | .ok bc =>
            match bd.get "sessionID" with
            | .error e => .error e
            | .ok sid =>
              match bd.get "senderAccountNumber" with
              | .error e => .error e
              | .ok sa =>
                match bd.get "transferCharge" with
                | .error e => .error e
                | .ok tc =>
                  match bd.get "nameEnquiryID" with
                  | .error e => .error e
                  | .ok neid =>
                    match data.index2 "Data" "SenderTrackingReference" with
                    | .error e => .error e
                    | .ok t =>
                      .ok ⟨200, .json (.obj
                        [("beneficiary_account_number", ban),
                         ("beneficiary_name", bn),
                         ("beneficiary_code", bc),
                         ("session_id", sid),
                         ("sender_account", sa),
                         ("transfer_charge", tc),
                         ("name_enquiry_id", neid),
                         ("tracking_reference", t)]), false⟩
  | .ok false => .ok ⟨response.status_code, .response response, true⟩

/-- Embeds `ServiceTypeUtils.confirm_transfer_recipient_request`. -/
def confirm_transfer_recipient_request :
    HeadersResult → Json → HttpResponse → EndpointOutcome :=
  dispatchHeaders confirm_transfer_recipient_body

/-- Body shared by `send_funds_from_main_account_request` (lines 333-346)
and `send_funds_from_virtual_account_request` (lines 376-389): same
predicate as the fund/withdraw endpoints, success payload
`{"transaction_reference": response_data.get("transactionReference"),
"request_reference": response_data.get("requestReference")}`. -/
def send_funds_body (_data : Json) (response : HttpResponse) :
    Except PyErr PyKudaResponse :=
  match transaction_reference_pred response.status_code response.body with
  | .error e => .error e
  | .ok true =>
    match response.body.get "transactionReference" with
    | .error e => .error e
    | .ok tr =>
      match response.body.get "requestReference" with
      | .error e => .error e
      | .ok rr =>
        .ok ⟨200, .json (.obj [("transaction_reference", tr),
                               ("request_reference", rr)]), false⟩
  | .ok false => .ok ⟨response.status_code, .response response, true⟩

/-- Embeds `ServiceTypeUtils.send_funds_from_main_account_request`. -/
def send_funds_from_main_account_request :
    HeadersResult → Json → HttpResponse → EndpointOutcome :=
  dispatchHeaders send_funds_body

/-- Embeds `ServiceTypeUtils.send_funds_from_virtual_account_request` (body
textually identical to `send_funds_from_main_account_request`). -/
def send_funds_from_virtual_account_request :
    HeadersResult → Json → HttpResponse → EndpointOutcome :=
  dispatchHeaders send_funds_body

/-- Success predicate shape shared by the three bill endpoints
(`billers_request` lines 421-426, `verify_bill_customer_request` lines
462-467, `virtual_account_purchase_bill_request` lines 503-508):
`response.status_code == 200 and response_data.get("status") and
response_data.get("data") and response_data.get("data").get(field)`,
with `field` being `"billers"`, `"customerName"` or `"reference"`. -/
def bill_pred (field : String) (sc : Int) (rd : Json) : Except PyErr Bool :=
  if sc = 200 then
    match truthyGet rd "status" with
    | .error e => .error e
    | .ok false => .ok false
    | .ok true =>
      match truthyGet rd "data" with
      | .error e => .error e
      | .ok false => .ok false
      | .ok true => truthyGet2 rd "data" field
  else .ok false

/-- Body shape shared by the three bill endpoints: on success returns
status 200 with payload `{key: response_data.get("data").get(field)}`
(`key` is `"billers"`, `"customerName"` or `"reference"`). -/
def bill_body (field key : String) (_data : Json) (response : HttpResponse) :
    Except PyErr PyKudaResponse :=
  match bill_pred field response.status_code response.body with
  | .error e => .error e
  | .ok true =>
    match response.body.get2 "data" field with
    | .error e => .error e
    | .ok v => .ok ⟨200, .json (.obj [(key, v)]), false⟩
  | .ok false => .ok ⟨response.status_code, .response response, true⟩

/-- Embeds `ServiceTypeUtils.billers_request`. -/
def billers_request : HeadersResult → Json → HttpResponse → EndpointOutcome :=
  dispatchHeaders (bill_body "billers" "billers")

/-- Embeds `ServiceTypeUtils.verify_bill_customer_request` (note: the payload key
`"customerName"` is kept verbatim from the remote field name). -/
def verify_bill_customer_request :
    HeadersResult → Json → HttpResponse → EndpointOutcome :=
  dispatchHeaders (bill_body "customerName" "customerName")

/-- Embeds `ServiceTypeUtils.virtual_account_purchase_bill_request`. -/
def virtual_account_purchase_bill_request :
    HeadersResult → Json → HttpResponse → EndpointOutcome :=
  dispatchHeaders (bill_body "reference" "reference")

/-- The twelve endpoint methods of `ServiceTypeUtils`. -/
inductive Endpoint where
  | bankList
  | createVirtualAccount
  | virtualAccountBalance
  | mainAccountBalance
  | fundVirtualAccount
  | withdrawFromVirtualAccount
  | confirmTransferRecipient
  | sendFundsFromMainAccount
  | sendFundsFromVirtualAccount
  | billers
  | verifyBillCustomer
  | virtualAccountPurchaseBill
deriving DecidableEq

/-- Dispatch table from an endpoint name to its method. -/
def runEndpoint : Endpoint → HeadersResult → Json → HttpResponse → EndpointOutcome
  | .bankList => bank_list_request
  | .createVirtualAccount => create_virtual_account_request
  | .virtualAccountBalance => virtual_account_balance_request
  | .mainAccountBalance => main_account_balance_request
  | .fundVirtualAccount => fund_virtual_account_request
  | .withdrawFromVirtualAccount => withdraw_from_virtual_account_request
  | .confirmTransferRecipient => confirm_transfer_recipient_request
  | .sendFundsFromMainAccount => send_funds_from_main_account_request
  | .sendFundsFromVirtualAccount => send_funds_from_virtual_account_request
  | .billers => billers_request
  | .verifyBillCustomer => verify_bill_customer_request
  | .virtualAccountPurchaseBill => virtual_account_purchase_bill_request

/-- The payload slot holds an extracted/constructed JSON value (not a raw
response object). -/
def PyData.isJson : PyData → Bool
  | .json _ => true
  | .response _ => false

/-- The payload slot holds a raw response object. -/
def PyData.isResponse : PyData → Bool
  | .json _ => false
  | .response _ => true

/-- The payload slot holds a string-keyed dictionary. -/
def PyData.isJsonObj : PyData → Bool
  | .json (.obj _) => true
  | _ => false

/-- Look a key up in a dictionary payload. -/
def PyData.lookupKey : PyData → String → Option Json
  | .json (.obj kvs), k => kvs.lookup k
  | _, _ => none

/-- The spec's Result invariant, stated of a returned `PyKudaResponse`:
exactly one of (a) an extracted payload with the error flag false, or
(b) the error flag true with a raw response attached as the payload. -/
def satisfiesResultInvariant (r : PyKudaResponse) : Bool :=
  ((!r.error) && r.data.isJson) ^^ (r.error && r.data.isResponse)

/-! ## Helper lemmas -/

/-- If a dict `.get` produced a truthy value, the key is present, so
subscription yields the same value. -/
theorem Json.get_truthy_index {j : Json} {k : String} {v : Json}
    (h : j.get k = .ok v) (hv : v.truthy = true) : j.index k = .ok v := by
  cases j <;> simp [Json.get] at h
  case obj kvs =>
    cases hl : kvs.lookup k with
    | none =>
      rw [hl] at h
      simp at h
      subst h
      simp [Json.truthy] at hv
    | some w =>
      rw [hl] at h
      simp at h
      subst h
      simp [Json.index, hl]

/-- A truthy `.get` condition yields the underlying looked-up value. -/
theorem truthyGet_true {j : Json} {k : String}
    (h : truthyGet j k = .ok true) :
    ∃ v, j.get k = .ok v ∧ v.truthy = true := by
  unfold truthyGet at h
  cases hg : j.get k with
  | error e => rw [hg] at h; simp [Except.map] at h
  | ok v =>
    rw [hg] at h
    simp [Except.map] at h
    exact ⟨v, rfl, h⟩

/-- A `.get` that succeeded was performed on a dict, so `.get` with any
other key also succeeds. -/
theorem get_ok_obj {j : Json} {k : String} {v : Json}
    (h : j.get k = .ok v) : ∃ kvs, j = .obj kvs := by
  cases j <;> simp [Json.get] at h
  exact ⟨_, rfl⟩

/-- On a dict, `.get` never raises. -/
theorem obj_get_ok (kvs : List (String × Json)) (k : String) :
    (Json.obj kvs).get k = .ok ((kvs.lookup k).getD .null) := rfl

/-- If the chained condition `j.get(k1).get(k2)` evaluated to a value,
then the corresponding subscription `j[k1]` succeeds with the same
intermediate dict. -/
theorem get2_ok_index {j : Json} {k1 k2 : String} {v : Json}
    (h : j.get2 k1 k2 = .ok v) :
    ∃ d, j.get k1 = .ok d ∧ j.index k1 = .ok d ∧ d.get k2 = .ok v := by
  unfold Json.get2 at h
  cases hg : j.get k1 with
  | error e => rw [hg] at h; simp [Except.bind] at h
  | ok d =>
    rw [hg] at h
    simp [Except.bind] at h
    obtain ⟨kvs2, hd⟩ := get_ok_obj h
    refine ⟨d, rfl, ?_, h⟩
    obtain ⟨kvs1, hj⟩ := get_ok_obj hg
    subst hj
    simp [Json.get] at hg
    cases hl : kvs1.lookup k1 with
    | none => rw [hl] at hg; simp at hg; rw [← hg] at hd; exact absurd hd (by simp)
    | some w =>
      rw [hl] at hg
      simp at hg
      subst hg
      simp [Json.index, hl]

/-- A truthy chained condition `j.get(k1).get(k2)` guarantees that the
subscription `j[k1][k2]` succeeds with the same (truthy) value. -/
theorem truthyGet2_true {j : Json} {k1 k2 : String}
    (h : truthyGet2 j k1 k2 = .ok true) :
    ∃ v, j.index2 k1 k2 = .ok v ∧ v.truthy = true := by
  unfold truthyGet2 at h
  cases hg : j.get2 k1 k2 with
  | error e => rw [hg] at h; simp [Except.map] at h
  | ok v =>
    rw [hg] at h
    simp [Except.map] at h
    obtain ⟨d, _, hid, hdv⟩ := get2_ok_index hg
    exact ⟨v, by simp [Json.index2, Except.bind, hid,
      Json.get_truthy_index hdv h], h⟩

/-- A truthy chained condition `j.get(k1).get(k2)` guarantees that `j[k1]`
is a dict. -/
theorem truthyGet2_true_get_obj {j : Json} {k1 k2 : String}
    (h : truthyGet2 j k1 k2 = .ok true) :
    ∃ kvs, j.get k1 = .ok (.obj kvs) := by
  unfold truthyGet2 at h
  cases hg : j.get2 k1 k2 with
  | error e => rw [hg] at h; simp [Except.map] at h
  | ok v =>
    obtain ⟨d, hgd, _, hdget⟩ := get2_ok_index hg
    obtain ⟨kvs, hd⟩ := get_ok_obj hdget
    subst hd
    exact ⟨kvs, hgd⟩

/-- Inversion of the `create_virtual_account_request` success predicate:
when it holds, the status is 200 and the subscription
`response_data["data"]["accountNumber"]` performed by the success branch
yields a truthy value. -/
theorem create_virtual_account_pred_true {sc : Int} {rd : Json}
    (h : create_virtual_account_pred sc rd = .ok true) :
    sc = 200 ∧ ∃ a, rd.index2 "data" "accountNumber" = .ok a ∧
      a.truthy = true := by
  unfold create_virtual_account_pred at h
  split at h
  case isFalse => simp at h
  case isTrue h200 =>
    refine ⟨h200, ?_⟩
    repeat' split at h
    all_goals first
      | (simp_all ; done)
      | exact truthyGet2_true h

/-- Inversion of the `confirm_transfer_recipient_request` success
predicate: when it holds, the status is 200 and
`response_data.get("data")` (bound to `beneficiary_data` by the success
branch) is a dict. -/
theorem confirm_transfer_recipient_pred_true {sc : Int} {rd : Json}
    (h : confirm_transfer_recipient_pred sc rd = .ok true) :
    sc = 200 ∧ ∃ kvs, rd.get "data" = .ok (.obj kvs) := by
  unfold confirm_transfer_recipient_pred at h
  split at h
  case isFalse => simp at h
  case isTrue h200 =>
    refine ⟨h200, ?_⟩
    repeat' split at h
    all_goals first
      | (simp_all ; done)
      | exact truthyGet2_true_get_obj h

/-- When the transport status is 200 but `data.accountNumber` is absent
(`response_data.get("data").get("accountNumber")` evaluates to `None`),
the `create_virtual_account_request` success predicate evaluates to false
without raising: every conjunct either fails or is falsy. -/
theorem create_virtual_account_pred_missing {sc : Int} {rd : Json}
    (h200 : sc = 200) (hm : rd.get2 "data" "accountNumber" = .ok .null) :
    create_virtual_account_pred sc rd = .ok false := by
  subst h200
  have hm0 := hm
  unfold Json.get2 at hm
  cases hg : rd.get "data" with
  | error e => rw [hg] at hm; simp [Except.bind] at hm
  | ok v1 =>
    rw [hg] at hm
    simp [Except.bind] at hm
    obtain ⟨kvs1, hv1⟩ := get_ok_obj hm
    subst hv1
    obtain ⟨kvs, hrd⟩ := get_ok_obj hg
    subst hrd
    simp [Json.get] at hg
    cases hl : kvs.lookup "data" with
    | none => rw [hl] at hg; simp at hg
    | some w =>
      rw [hl] at hg
      simp at hg
      subst hg
      have htr : (Json.obj kvs).truthy = true := by
        cases kvs with
        | nil => simp [List.lookup] at hl
        | cons p l => simp [Json.truthy]
      have hnull : Json.null.truthy = false := rfl
      cases hb : ((kvs.lookup "status").getD Json.null).truthy with
      | false =>
        simp [create_virtual_account_pred, htr, truthyGet, Json.get,
          Except.map, hb]
      | true =>
        cases kvs1 with
        | nil =>
          have hdt : (Json.obj ([] : List (String × Json))).truthy = false :=
            rfl
          simp [create_virtual_account_pred, htr, truthyGet, Json.get,
            Except.map, hb, hl, hdt]
        | cons q l1 =>
          have hdt : (Json.obj (q :: l1)).truthy = true := rfl
          simp [create_virtual_account_pred, htr, truthyGet, truthyGet2,
            Json.get, Except.map, hb, hl, hdt, hm0, hnull]

/-- Every success predicate evaluates to false (raising nothing) when the
transport status is not 200: the `response.status_code == 200` conjunct is
evaluated first and `and` short-circuits. -/
theorem bank_list_pred_ne_200 {sc : Int} (rd : Json) (h : sc ≠ 200) :
    bank_list_pred sc rd = .ok false := by simp [bank_list_pred, h]

/-- See `bank_list_pred_ne_200`. -/
theorem create_virtual_account_pred_ne_200 {sc : Int} (rd : Json)
    (h : sc ≠ 200) : create_virtual_account_pred sc rd = .ok false := by
  simp [create_virtual_account_pred, h]

/-- See `bank_list_pred_ne_200`. -/
theorem balance_pred_ne_200 {sc : Int} (rd : Json) (h : sc ≠ 200) :
    balance_pred sc rd = .ok false := by simp [balance_pred, h]

/-- See `bank_list_pred_ne_200`. -/
theorem transaction_reference_pred_ne_200 {sc : Int} (rd : Json)
    (h : sc ≠ 200) : transaction_reference_pred sc rd = .ok false := by
  simp [transaction_reference_pred, h]

/-- See `bank_list_pred_ne_200`. -/
theorem confirm_transfer_recipient_pred_ne_200 {sc : Int} (rd : Json)
    (h : sc ≠ 200) : confirm_transfer_recipient_pred sc rd = .ok false := by
  simp [confirm_transfer_recipient_pred, h]

/-- See `bank_list_pred_ne_200`. -/
theorem bill_pred_ne_200 (field : String) {sc : Int} (rd : Json)
    (h : sc ≠ 200) : bill_pred field sc rd = .ok false := by
  simp [bill_pred, h]

/-- Every `PyKudaResponse` that `bank_list_body` returns satisfies the
exactly-one Result invariant. -/
theorem bank_list_body_invariant (req : Json) {resp : HttpResponse}
    {r : PyKudaResponse} (h : bank_list_body req resp = .ok r) :
    satisfiesResultInvariant r = true := by
  unfold bank_list_body at h
  repeat' split at h
  all_goals cases h
  all_goals simp [satisfiesResultInvariant, PyData.isJson, PyData.isResponse]

/-- See `bank_list_body_invariant`. -/
theorem create_virtual_account_body_invariant (req : Json)
    {resp : HttpResponse} {r : PyKudaResponse}
    (h : create_virtual_account_body req resp = .ok r) :
    satisfiesResultInvariant r = true := by
  unfold create_virtual_account_body at h
  repeat' split at h
  all_goals cases h
  all_goals simp [satisfiesResultInvariant, PyData.isJson, PyData.isResponse]

/-- See `bank_list_body_invariant`. -/
theorem balance_body_invariant (req : Json) {resp : HttpResponse}
    {r : PyKudaResponse} (h : balance_body req resp = .ok r) :
    satisfiesResultInvariant r = true := by
  unfold balance_body at h
  repeat' split at h
  all_goals cases h
  all_goals simp [satisfiesResultInvariant, PyData.isJson, PyData.isResponse]

/-- See `bank_list_body_invariant`. -/
theorem transaction_reference_body_invariant (req : Json)
    {resp : HttpResponse} {r : PyKudaResponse}
    (h : transaction_reference_body req resp = .ok r) :
    satisfiesResultInvariant r = true := by
  unfold transaction_reference_body at h
  repeat' split at h
  all_goals cases h
  all_goals simp [satisfiesResultInvariant, PyData.isJson, PyData.isResponse]

/-- See `bank_list_body_invariant`. -/
theorem confirm_transfer_recipient_body_invariant (req : Json)
    {resp : HttpResponse} {r : PyKudaResponse}
    (h : confirm_transfer_recipient_body req resp = .ok r) :
    satisfiesResultInvariant r = true := by
  unfold confirm_transfer_recipient_body at h
  repeat' split at h
  all_goals cases h
  all_goals simp [satisfiesResultInvariant, PyData.isJson, PyData.isResponse]

/-- See `bank_list_body_invariant`. -/
theorem send_funds_body_invariant (req : Json) {resp : HttpResponse}
    {r : PyKudaResponse} (h : send_funds_body req resp = .ok r) :
    satisfiesResultInvariant r = true := by
  unfold send_funds_body at h
  repeat' split at h
  all_goals cases h
  all_goals simp [satisfiesResultInvariant, PyData.isJson, PyData.isResponse]

/-- See `bank_list_body_invariant`. -/
theorem bill_body_invariant (field key : String) (req : Json)
    {resp : HttpResponse} {r : PyKudaResponse}
    (h : bill_body field key req resp = .ok r) :
    satisfiesResultInvariant r = true := by
  unfold bill_body at h
  repeat' split at h
  all_goals cases h
  all_goals simp [satisfiesResultInvariant, PyData.isJson, PyData.isResponse]

/-- Success results of `create_virtual_account_body` carry a string-keyed
dictionary payload. -/
theorem create_virtual_account_body_obj (req : Json) {resp : HttpResponse}
    {r : PyKudaResponse} (h : create_virtual_account_body req resp = .ok r)
    (herr : r.error = false) : r.data.isJsonObj = true := by
  unfold create_virtual_account_body at h
  repeat' split at h
  all_goals cases h
  all_goals simp_all [PyData.isJsonObj]

/-- See `create_virtual_account_body_obj`. -/
theorem balance_body_obj (req : Json) {resp : HttpResponse}
    {r : PyKudaResponse} (h : balance_body req resp = .ok r)
    (herr : r.error = false) : r.data.isJsonObj = true := by
  unfold balance_body at h
  repeat' split at h
  all_goals cases h
  all_goals simp_all [PyData.isJsonObj]

/-- See `create_virtual_account_body_obj`. -/
theorem transaction_reference_body_obj (req : Json) {resp : HttpResponse}
    {r : PyKudaResponse} (h : transaction_reference_body req resp = .ok r)
    (herr : r.error = false) : r.data.isJsonObj = true := by
  unfold transaction_reference_body at h
  repeat' split at h
  all_goals cases h
  all_goals simp_all [PyData.isJsonObj]

/-- See `create_virtual_account_body_obj`. -/
theorem confirm_transfer_recipient_body_obj (req : Json)
    {resp : HttpResponse} {r : PyKudaResponse}
    (h : confirm_transfer_recipient_body req resp = .ok r)
    (herr : r.error = false) : r.data.isJsonObj = true := by
  unfold confirm_transfer_recipient_body at h
  repeat' split at h
  all_goals cases h
  all_goals simp_all [PyData.isJsonObj]

/-- See `create_virtual_account_body_obj`. -/
theorem send_funds_body_obj (req : Json) {resp : HttpResponse}
    {r : PyKudaResponse} (h : send_funds_body req resp = .ok r)
    (herr : r.error = false) : r.data.isJsonObj = true := by
  unfold send_funds_body at h
  repeat' split at h
  all_goals cases h
  all_goals simp_all [PyData.isJsonObj]

/-- See `create_virtual_account_body_obj`. -/
theorem bill_body_obj (field key : String) (req : Json)
    {resp : HttpResponse} {r : PyKudaResponse}
    (h : bill_body field key req resp = .ok r)
    (herr : r.error = false) : r.data.isJsonObj = true := by
  unfold bill_body at h
  repeat' split at h
  all_goals cases h
  all_goals simp_all [PyData.isJsonObj]

/-- Shape of a non-error `PyKudaResponse` returned by
`create_virtual_account_body`: it comes from the success branch, so its
payload is the two-entry dict whose `tracking_reference` value was
subscripted out of the caller's request. -/
theorem create_virtual_account_body_ok_shape {req : Json}
    {resp : HttpResponse} {r : PyKudaResponse}
    (h : create_virtual_account_body req resp = .ok r)
    (herr : r.error = false) :
    ∃ a t, req.index2 "Data" "trackingReference" = .ok t ∧
      r = ⟨201, .json (.obj [("account_number", a),
                             ("tracking_reference", t)]), false⟩ := by
  unfold create_virtual_account_body at h
  repeat' split at h
  all_goals cases h
  · exact ⟨_, _, by assumption, rfl⟩
  · simp at herr

/-- Shape of a non-error `PyKudaResponse` returned by
`confirm_transfer_recipient_body`: its payload is the eight-entry dict
whose `tracking_reference` value was subscripted out of the caller's
request. -/
theorem confirm_transfer_recipient_body_ok_shape {req : Json}
    {resp : HttpResponse} {r : PyKudaResponse}
    (h : confirm_transfer_recipient_body req resp = .ok r)
    (herr : r.error = false) :
    ∃ ban bn bc sid sa tc neid t,
      req.index2 "Data" "SenderTrackingReference" = .ok t ∧
      r = ⟨200, .json (.obj [("beneficiary_account_number", ban),
                             ("beneficiary_name", bn),
                             ("beneficiary_code", bc),
                             ("session_id", sid),
                             ("sender_account", sa),
                             ("transfer_charge", tc),
                             ("name_enquiry_id", neid),
                             ("tracking_reference", t)]), false⟩ := by
  unfold confirm_transfer_recipient_body at h
  repeat' split at h
  all_goals cases h
  · exact ⟨_, _, _, _, _, _, _, _, by assumption, rfl⟩
  · simp at herr

/-! ## Claim theorems -/

/-- Claim C2, counterexample: At the concrete input where `generate_headers`
fails with a 401 response, `create_virtual_account_request` returns a
result whose `status_code` is 401 and whose payload is the failure object,
but whose `is_error` flag is `false` (the dataclass default — the source
passes no `error=True` at this call site), refuting the claim that
`is_error` is true on this path. -/
theorem c2_counterexample :
    create_virtual_account_request (.err ⟨401, .null⟩) .null ⟨200, .null⟩ =
      ⟨.ok ⟨401, .response ⟨401, .null⟩, false⟩, 0⟩ ∧
    (PyKudaResponse.mk 401 (.response ⟨401, .null⟩) false).error = false :=
  ⟨rfl, rfl⟩

/-- Claim C2, amended: For every endpoint method, if `generate_headers`
returns an error-carrying response object, the method returns a Result
whose `status_code` equals that failure's status code and whose payload is
the failure object itself, but with the `is_error` flag left `false` (its
default: the short-circuit call sites do not pass `error=True`). -/
theorem c2_short_circuit_result (ep : Endpoint) (hr : HttpResponse)
    (req : Json) (resp : HttpResponse) :
    runEndpoint ep (.err hr) req resp =
      ⟨.ok ⟨hr.status_code, .response hr, false⟩, 0⟩ := by
  cases ep <;> rfl

/-- Claim C1, counterexample: On the short-circuit path the returned Result
has the raw failure response as payload and the error flag `false`, so
neither "fully-populated payload with error flag false" nor "error flag
true with raw response attached" holds — the exactly-one invariant fails
at this concrete input. -/
theorem c1_counterexample :
    bank_list_request (.err ⟨401, .null⟩) .null ⟨200, .null⟩ =
      ⟨.ok ⟨401, .response ⟨401, .null⟩, false⟩, 0⟩ ∧
    satisfiesResultInvariant ⟨401, .response ⟨401, .null⟩, false⟩ = false :=
  ⟨rfl, rfl⟩

/-- Claim C3: For every endpoint method, if `generate_headers` returns an
error-like object, the method returns without issuing any HTTP POST
(`posts = 0`), and the returned Result's status code equals the header
step's status code. -/
theorem c3_short_circuit_no_post (ep : Endpoint) (hr : HttpResponse)
    (req : Json) (resp : HttpResponse) :
    (runEndpoint ep (.err hr) req resp).posts = 0 ∧
    (runEndpoint ep (.err hr) req resp).result =
      .ok ⟨hr.status_code, .response hr, false⟩ := by
  cases ep <;> exact ⟨rfl, rfl⟩

/-- Claim C4: `create_virtual_account_request`, given valid headers,
transport status 200, body `{"status": true, "data": {"accountNumber":
"1234567890"}}` and request `{"Data": {"trackingReference": "TRK1"}}`,
returns `status_code = 201` (normalized from the transport's 200), payload
`{"account_number": "1234567890", "tracking_reference": "TRK1"}`, and
`is_error = false`. -/
theorem c4_create_virtual_account_scenario :
    create_virtual_account_request .ok
      (.obj [("Data", .obj [("trackingReference", .str "TRK1")])])
      ⟨200, .obj [("status", .bool true),
                  ("data", .obj [("accountNumber", .str "1234567890")])]⟩ =
      ⟨.ok ⟨201, .json (.obj [("account_number", .str "1234567890"),
                              ("tracking_reference", .str "TRK1")]), false⟩,
       1⟩ := rfl

/-- Claim C5: For every endpoint method, given valid headers and a transport
response whose HTTP status code is not 200, the returned Result is the
error-flagged raw response with `status_code` equal to the transport's
status code. -/
theorem c5_non_200_error_result (ep : Endpoint) (req : Json)
    (resp : HttpResponse) (h : resp.status_code ≠ 200) :
    runEndpoint ep .ok req resp =
      ⟨.ok ⟨resp.status_code, .response resp, true⟩, 1⟩ := by
  cases ep <;>
    simp [runEndpoint, bank_list_request, create_virtual_account_request,
      virtual_account_balance_request, main_account_balance_request,
      fund_virtual_account_request, withdraw_from_virtual_account_request,
      confirm_transfer_recipient_request,
      send_funds_from_main_account_request,
      send_funds_from_virtual_account_request, billers_request,
      verify_bill_customer_request, virtual_account_purchase_bill_request,
      dispatchHeaders, bank_list_body, create_virtual_account_body,
      balance_body, transaction_reference_body,
      confirm_transfer_recipient_body, send_funds_body, bill_body,
      bank_list_pred, create_virtual_account_pred, balance_pred,
      transaction_reference_pred, confirm_transfer_recipient_pred,
      bill_pred, h]

/-- Claim C5, witness: The non-200 theorem at a concrete input: a 404 from
the transport on the bank-list endpoint yields the error-flagged raw
response with status 404. -/
theorem c5_witness :
    (404 : Int) ≠ 200 ∧
    runEndpoint .bankList .ok .null ⟨404, .null⟩ =
      ⟨.ok ⟨404, .response ⟨404, .null⟩, true⟩, 1⟩ :=
  ⟨by decide, c5_non_200_error_result .bankList .null ⟨404, .null⟩ (by decide)⟩

/-- Claim C7: `virtual_account_balance_request` and
`main_account_balance_request`, given valid headers, transport status 200
and body `{"status": true, "data": {"ledgerBalance": 100,
"availableBalance": 90, "withdrawableBalance": 80}}`, return `is_error =
false`, `status_code = 200` and payload `{"ledger": 100, "available": 90,
"withdrawable": 80}`. -/
theorem c7_balance_scenario :
    virtual_account_balance_request .ok .null
      ⟨200, .obj [("status", .bool true),
                  ("data", .obj [("ledgerBalance", .num 100),
                                 ("availableBalance", .num 90),
                                 ("withdrawableBalance", .num 80)])]⟩ =
      ⟨.ok ⟨200, .json (.obj [("ledger", .num 100), ("available", .num 90),
                              ("withdrawable", .num 80)]), false⟩, 1⟩ ∧
    main_account_balance_request .ok .null
      ⟨200, .obj [("status", .bool true),
                  ("data", .obj [("ledgerBalance", .num 100),
                                 ("availableBalance", .num 90),
                                 ("withdrawableBalance", .num 80)])]⟩ =
      ⟨.ok ⟨200, .json (.obj [("ledger", .num 100), ("available", .num 90),
                              ("withdrawable", .num 80)]), false⟩, 1⟩ :=
  ⟨rfl, rfl⟩

/-- Claim C6, counterexample: `virtual_account_balance_request` with valid
headers and a 200 response whose body is `{"status": true, "data":
{"availableBalance": 90}}` (the required `data.ledgerBalance` is missing)
raises `KeyError("ledgerBalance")` instead of returning an error-flagged
Result, refuting the claim for this endpoint. -/
theorem c6_counterexample :
    virtual_account_balance_request .ok .null
      ⟨200, .obj [("status", .bool true),
                  ("data", .obj [("availableBalance", .num 90)])]⟩ =
      ⟨.error (.keyError "ledgerBalance"), 1⟩ := rfl

/-- Claim C8, counterexample: A successful `bank_list_request` returns the
raw banks *list* as its payload — not a string-keyed dictionary — refuting
the claim's "including for the bank-list endpoint". -/
theorem c8_counterexample :
    bank_list_request .ok .null
      ⟨200, .obj [("status", .bool true),
                  ("data", .obj [("banks",
                    .arr [.obj [("name", .str "GTB")]])])]⟩ =
      ⟨.ok ⟨200, .json (.arr [.obj [("name", .str "GTB")]]), false⟩, 1⟩ ∧
    PyData.isJsonObj (.json (.arr [.obj [("name", .str "GTB")]])) = false :=
  ⟨rfl, rfl⟩

/-- Claim C1, amended: Whenever an endpoint method returns a Result after a
successful `generate_headers` step, exactly one of {extracted payload with
error flag false, error flag true with raw response attached} holds.  On
the short-circuit path, however, the invariant fails: the method returns
the raw failure response as payload with the error flag `false`, so
neither alternative holds there. -/
theorem c1_invariant_except_short_circuit :
    (∀ (ep : Endpoint) (req : Json) (resp : HttpResponse)
       (r : PyKudaResponse),
      (runEndpoint ep .ok req resp).result = .ok r →
      satisfiesResultInvariant r = true) ∧
    (∀ (ep : Endpoint) (hr : HttpResponse) (req : Json)
       (resp : HttpResponse),
      (runEndpoint ep (.err hr) req resp).result =
        .ok ⟨hr.status_code, .response hr, false⟩ ∧
      satisfiesResultInvariant ⟨hr.status_code, .response hr, false⟩ =
        false) := by
  constructor
  · intro ep req resp r h
    cases ep
    · exact bank_list_body_invariant req h
    · exact create_virtual_account_body_invariant req h
    · exact balance_body_invariant req h
    · exact balance_body_invariant req h
    · exact transaction_reference_body_invariant req h
    · exact transaction_reference_body_invariant req h
    · exact confirm_transfer_recipient_body_invariant req h
    · exact send_funds_body_invariant req h
    · exact send_funds_body_invariant req h
    · exact bill_body_invariant _ _ req h
    · exact bill_body_invariant _ _ req h
    · exact bill_body_invariant _ _ req h
  · intro ep hr req resp
    exact ⟨by cases ep <;> rfl, rfl⟩

/-- Claim C1, witness: The invariant theorem applied at a concrete
successful bank-list call. -/
theorem c1_witness :
    satisfiesResultInvariant
      ⟨200, .json (.arr [.obj [("name", .str "GTB")]]), false⟩ = true :=
  c1_invariant_except_short_circuit.1 .bankList .null
    ⟨200, .obj [("status", .bool true),
                ("data", .obj [("banks", .arr [.obj [("name", .str "GTB")]])])]⟩
    ⟨200, .json (.arr [.obj [("name", .str "GTB")]]), false⟩ rfl

/-- Claim C8, amended: For every endpoint method other than
`bank_list_request`, the payload of a successful call's Result is a
string-keyed dictionary; `bank_list_request` instead returns the raw banks
list extracted from the response body. -/
theorem c8_payload_dict_except_bank_list (ep : Endpoint)
    (hne : ep ≠ .bankList) (req : Json) (resp : HttpResponse)
    (r : PyKudaResponse) (h : (runEndpoint ep .ok req resp).result = .ok r)
    (herr : r.error = false) : r.data.isJsonObj = true := by
  cases ep
  · exact absurd rfl hne
  · exact create_virtual_account_body_obj req h herr
  · exact balance_body_obj req h herr
  · exact balance_body_obj req h herr
  · exact transaction_reference_body_obj req h herr
  · exact transaction_reference_body_obj req h herr
  · exact confirm_transfer_recipient_body_obj req h herr
  · exact send_funds_body_obj req h herr
  · exact send_funds_body_obj req h herr
  · exact bill_body_obj _ _ req h herr
  · exact bill_body_obj _ _ req h herr
  · exact bill_body_obj _ _ req h herr

/-- Claim C8, witness: The dictionary-payload theorem applied at a concrete
successful billers call. -/
theorem c8_witness :
    Endpoint.billers ≠ Endpoint.bankList ∧
    (PyData.json (.obj [("billers", .arr [.str "MTN"])])).isJsonObj = true :=
  ⟨by decide,
   c8_payload_dict_except_bank_list .billers (by decide) .null
     ⟨200, .obj [("status", .bool true),
                 ("data", .obj [("billers", .arr [.str "MTN"])])]⟩
     ⟨200, .json (.obj [("billers", .arr [.str "MTN"])]), false⟩ rfl rfl⟩

/-- Claim C6, amended: For `create_virtual_account_request`, whose success
predicate itself checks the nested field, a 200 response with
`data.accountNumber` absent yields an error-flagged Result.  For the two
balance endpoints, whose predicate checks only the status flag, a 200
response with a truthy status but `data.ledgerBalance` missing makes the
payload subscription raise (`KeyError`) instead of returning a Result. -/
theorem c6_missing_field_behaviour :
    (∀ (req : Json) (resp : HttpResponse),
      resp.status_code = 200 →
      resp.body.get2 "data" "accountNumber" = .ok .null →
      create_virtual_account_request .ok req resp =
        ⟨.ok ⟨resp.status_code, .response resp, true⟩, 1⟩) ∧
    (∀ (req : Json) (resp : HttpResponse) (e : PyErr),
      resp.status_code = 200 →
      truthyGet resp.body "status" = .ok true →
      resp.body.index2 "data" "ledgerBalance" = .error e →
      virtual_account_balance_request .ok req resp = ⟨.error e, 1⟩) ∧
    (∀ (req : Json) (resp : HttpResponse) (e : PyErr),
      resp.status_code = 200 →
      truthyGet resp.body "status" = .ok true →
      resp.body.index2 "data" "ledgerBalance" = .error e →
      main_account_balance_request .ok req resp = ⟨.error e, 1⟩) := by
  have hbal : ∀ (req : Json) (resp : HttpResponse) (e : PyErr),
      resp.status_code = 200 →
      truthyGet resp.body "status" = .ok true →
      resp.body.index2 "data" "ledgerBalance" = .error e →
      balance_body req resp = .error e := by
    intro req resp e h200 hst hidx
    unfold balance_body balance_pred
    simp [h200, hst, hidx]
  refine ⟨?_, ?_, ?_⟩
  · intro req resp h200 hm
    have hpred := create_virtual_account_pred_missing h200 hm
    have hbody : create_virtual_account_body req resp =
        .ok ⟨resp.status_code, .response resp, true⟩ := by
      unfold create_virtual_account_body
      simp [hpred]
    simp only [create_virtual_account_request, dispatchHeaders]
    rw [hbody]
  · intro req resp e h200 hst hidx
    simp only [virtual_account_balance_request, dispatchHeaders]
    rw [hbal req resp e h200 hst hidx]
  · intro req resp e h200 hst hidx
    simp only [main_account_balance_request, dispatchHeaders]
    rw [hbal req resp e h200 hst hidx]

/-- Claim C6, witness: The amended theorem applied at concrete inputs: a 200
account-creation response with `data.accountNumber` absent gives an
error-flagged Result, and a 200 balance response with `data.ledgerBalance`
absent raises `KeyError("ledgerBalance")`. -/
theorem c6_witness :
    create_virtual_account_request .ok .null
      ⟨200, .obj [("status", .bool true), ("data", .obj [("x", .num 1)])]⟩ =
      ⟨.ok ⟨200, .response
        ⟨200, .obj [("status", .bool true),
                    ("data", .obj [("x", .num 1)])]⟩, true⟩, 1⟩ ∧
    virtual_account_balance_request .ok .null
      ⟨200, .obj [("status", .bool true),
                  ("data", .obj [("availableBalance", .num 90)])]⟩ =
      ⟨.error (.keyError "ledgerBalance"), 1⟩ :=
  ⟨c6_missing_field_behaviour.1 .null
     ⟨200, .obj [("status", .bool true), ("data", .obj [("x", .num 1)])]⟩
     rfl rfl,
   c6_missing_field_behaviour.2.1 .null
     ⟨200, .obj [("status", .bool true),
                 ("data", .obj [("availableBalance", .num 90)])]⟩
     (.keyError "ledgerBalance") rfl rfl rfl⟩

/-- Claim C10: When the response satisfies the success predicate but the
caller's request mapping lacks the `"Data"` key (or the nested tracking
key), `create_virtual_account_request` and
`confirm_transfer_recipient_request` raise the key-lookup error from the
request subscription instead of returning any Result. -/
theorem c10_missing_request_key_raises :
    (∀ (req : Json) (resp : HttpResponse) (k : String),
      create_virtual_account_pred resp.status_code resp.body = .ok true →
      req.index2 "Data" "trackingReference" = .error (.keyError k) →
      create_virtual_account_request .ok req resp =
        ⟨.error (.keyError k), 1⟩) ∧
    (∀ (req : Json) (resp : HttpResponse) (k : String),
      confirm_transfer_recipient_pred resp.status_code resp.body = .ok true →
      req.index2 "Data" "SenderTrackingReference" = .error (.keyError k) →
      confirm_transfer_recipient_request .ok req resp =
        ⟨.error (.keyError k), 1⟩) := by
  constructor
  · intro req resp k hpred hkey
    obtain ⟨h200, a, hidx, -⟩ := create_virtual_account_pred_true hpred
    have hbody : create_virtual_account_body req resp =
        .error (.keyError k) := by
      unfold create_virtual_account_body
      simp [hpred, hidx, hkey]
    simp only [create_virtual_account_request, dispatchHeaders]
    rw [hbody]
  · intro req resp k hpred hkey
    obtain ⟨h200, kvs, hget⟩ := confirm_transfer_recipient_pred_true hpred
    have hbody : confirm_transfer_recipient_body req resp =
        .error (.keyError k) := by
      unfold confirm_transfer_recipient_body
      simp only [hpred, hget]
      simp [Json.get, hkey]
    simp only [confirm_transfer_recipient_request, dispatchHeaders]
    rw [hbody]

/-- Claim C10, witness: A success-satisfying response together with a
request lacking the `"Data"` key makes `create_virtual_account_request`
raise `KeyError("Data")`. -/
theorem c10_witness :
    create_virtual_account_request .ok (.obj [("x", .num 1)])
      ⟨200, .obj [("status", .bool true),
                  ("data", .obj [("accountNumber", .str "1234567890")])]⟩ =
      ⟨.error (.keyError "Data"), 1⟩ :=
  c10_missing_request_key_raises.1 (.obj [("x", .num 1)])
    ⟨200, .obj [("status", .bool true),
                ("data", .obj [("accountNumber", .str "1234567890")])]⟩
    "Data" rfl rfl

/-- Claim C9: For `create_virtual_account_request` and
`confirm_transfer_recipient_request`, the `tracking_reference` in a
successful Result's payload is exactly the value subscripted out of the
caller's request (`data["Data"]["trackingReference"]` /
`data["Data"]["SenderTrackingReference"]`), so it does not depend on the
response: any two success responses for the same request yield the same
`tracking_reference`. -/
theorem c9_tracking_reference_from_request :
    (∀ (req : Json) (resp : HttpResponse) (r : PyKudaResponse),
      (create_virtual_account_request .ok req resp).result = .ok r →
      r.error = false →
      r.data.lookupKey "tracking_reference" =
        (req.index2 "Data" "trackingReference").toOption ∧
      (req.index2 "Data" "trackingReference").toOption.isSome = true) ∧
    (∀ (req : Json) (resp : HttpResponse) (r : PyKudaResponse),
      (confirm_transfer_recipient_request .ok req resp).result = .ok r →
      r.error = false →
      r.data.lookupKey "tracking_reference" =
        (req.index2 "Data" "SenderTrackingReference").toOption ∧
      (req.index2 "Data" "SenderTrackingReference").toOption.isSome = true) ∧
    (∀ (req : Json) (resp1 resp2 : HttpResponse) (r1 r2 : PyKudaResponse),
      (create_virtual_account_request .ok req resp1).result = .ok r1 →
      r1.error = false →
      (create_virtual_account_request .ok req resp2).result = .ok r2 →
      r2.error = false →
      r1.data.lookupKey "tracking_reference" =
        r2.data.lookupKey "tracking_reference") ∧
    (∀ (req : Json) (resp1 resp2 : HttpResponse) (r1 r2 : PyKudaResponse),
      (confirm_transfer_recipient_request .ok req resp1).result = .ok r1 →
      r1.error = false →
      (confirm_transfer_recipient_request .ok req resp2).result = .ok r2 →
      r2.error = false →
      r1.data.lookupKey "tracking_reference" =
        r2.data.lookupKey "tracking_reference") := by
  have hcreate : ∀ (req : Json) (resp : HttpResponse) (r : PyKudaResponse),
      (create_virtual_account_request .ok req resp).result = .ok r →
      r.error = false →
      r.data.lookupKey "tracking_reference" =
        (req.index2 "Data" "trackingReference").toOption ∧
      (req.index2 "Data" "trackingReference").toOption.isSome = true := by
    intro req resp r h herr
    have hb : create_virtual_account_body req resp = .ok r := h
    obtain ⟨a, t, hchain, hr⟩ := create_virtual_account_body_ok_shape hb herr
    subst hr
    rw [hchain]
    constructor
    · simp [PyData.lookupKey, List.lookup, Except.toOption]
    · simp [Except.toOption]
  have hconfirm : ∀ (req : Json) (resp : HttpResponse) (r : PyKudaResponse),
      (confirm_transfer_recipient_request .ok req resp).result = .ok r →
      r.error = false →
      r.data.lookupKey "tracking_reference" =
        (req.index2 "Data" "SenderTrackingReference").toOption ∧
      (req.index2 "Data" "SenderTrackingReference").toOption.isSome =
        true := by
    intro req resp r h herr
    have hb : confirm_transfer_recipient_body req resp = .ok r := h
    obtain ⟨ban, bn, bc, sid, sa, tc, neid, t, hchain, hr⟩ :=
      confirm_transfer_recipient_body_ok_shape hb herr
    subst hr
    rw [hchain]
    constructor
    · simp [PyData.lookupKey, List.lookup, Except.toOption]
    · simp [Except.toOption]
  refine ⟨hcreate, hconfirm, ?_, ?_⟩
  · intro req resp1 resp2 r1 r2 h1 e1 h2 e2
    rw [(hcreate req resp1 r1 h1 e1).1, (hcreate req resp2 r2 h2 e2).1]
  · intro req resp1 resp2 r1 r2 h1 e1 h2 e2
    rw [(hconfirm req resp1 r1 h1 e1).1, (hconfirm req resp2 r2 h2 e2).1]

/-- Claim C9, witness: The create-endpoint part of the theorem applied at a
concrete successful call. -/
theorem c9_witness :
    (PyData.json (.obj [("account_number", .str "1234567890"),
                        ("tracking_reference", .str "TRK1")])).lookupKey
        "tracking_reference" =
      (Json.index2 (.obj [("Data", .obj [("trackingReference", .str "TRK1")])])
        "Data" "trackingReference").toOption ∧
    (Json.index2 (.obj [("Data", .obj [("trackingReference", .str "TRK1")])])
      "Data" "trackingReference").toOption.isSome = true :=
  c9_tracking_reference_from_request.1
    (.obj [("Data", .obj [("trackingReference", .str "TRK1")])])
    ⟨200, .obj [("status", .bool true),
                ("data", .obj [("accountNumber", .str "1234567890")])]⟩
    ⟨201, .json (.obj [("account_number", .str "1234567890"),
                       ("tracking_reference", .str "TRK1")]), false⟩
    rfl rfl

end Pykuda
